import Mathlib

/-!
# RSS matcher (`chapter2/search/rss.go`)

A shallow embedding of `rssMatcher.retrieve` and `rssMatcher.Match`.

* Go's `(value, error)` returns of the two methods are kept as pairs whose
  components may be nil (`Option`), so that "nil results" and "nil error" are
  statements about the returned pair.
* A Go slice is an `Option (List α)`: `none` is the nil slice and `append`
  on it yields a non-nil slice.
* The three library calls (`http.Get`, `xml.Decoder.Decode`,
  `regexp.MatchString`) are fields of a `World`; every call to the outside
  (including `log.Printf` and the deferred `Body.Close`) is recorded in an
  event trace returned next to the Go result.
-/

namespace Search

/-! ## Library types -/

/-- Go `error` values, identified by their message (`Error()`). -/
structure GoError where
  msg : String
  deriving DecidableEq, Repr

/-- The call `errors.New(text)`. -/
def errors.New (text : String) : GoError := ⟨text⟩

/-- The type `xml.Name`. -/
structure xml.Name where
  Space : String
  Local : String
  deriving DecidableEq, Repr

/-- A Go slice: `none` is the nil slice. -/
abbrev Slice (α : Type) := Option (List α)

/-- The builtin `append(s, x)`; appending to the nil slice allocates. -/
def Slice.append {α : Type} : Slice α → α → Slice α
  | none, x => some [x]
  | some xs, x => some (xs ++ [x])

/-- The elements of a slice (the nil slice has none). -/
def Slice.toList {α : Type} : Slice α → List α
  | none => []
  | some xs => xs

/-- The slice that successive `append`s to a nil slice build from a list. -/
def Slice.ofList {α : Type} : List α → Slice α
  | [] => none
  | x :: xs => some (x :: xs)

/-- The part of `http.Response` that `retrieve` can observe. -/
structure Response where
  StatusCode : Int
  Body : String
  deriving DecidableEq, Repr

/-! ## Data model (`rss.go`, lines 11-57) -/

/-- item defines the fields associated with the item tag in the rss document. -/
structure item where
  XMLName : xml.Name
  PubDate : String
  Title : String
  Description : String
  Link : String
  GUID : String
  GeoRssPoint : String
  deriving DecidableEq, Repr

/-- image defines the fields associated with the image tag in the rss document. -/
structure image where
  XMLName : xml.Name
  URL : String
  Title : String
  Link : String
  deriving DecidableEq, Repr

/-- channel defines the fields associated with the channel tag in the rss document. -/
structure channel where
  XMLName : xml.Name
  Title : String
  Description : String
  Link : String
  PubDate : String
  LastBuildDate : String
  TTL : String
  Language : String
  ManagingEditor : String
  WebMaster : String
  Image : image
  Item : List item
  deriving DecidableEq, Repr

/-- document defines the fields associated with the rss document. -/
structure document where
  XMLName : xml.Name
  Channel : channel
  deriving DecidableEq, Repr

/-- Modelled from the spec: the feed descriptor `Feed` (declared in another
file of the package): type tag, site name and source URI. The source reads
its fields as `m.Type`, `m.Name` and `m.Uri`; `Type_` stands for `Type`. -/
structure Feed where
  Name : String
  Uri : String
  Type_ : String
  deriving DecidableEq, Repr

/-- Modelled from the spec: the value type `Result` (declared in another file
of the package): which field matched and the matched content. -/
structure Result where
  Field : String
  Content : String
  deriving DecidableEq, Repr

/-- rssMatcher implements the Matcher interface (it embeds `Feed`). -/
structure rssMatcher where
  toFeed : Feed
  deriving DecidableEq, Repr

/-- Field promotion of the embedded `Feed`. -/
def rssMatcher.Uri (m : rssMatcher) : String := m.toFeed.Uri

/-- Field promotion of the embedded `Feed`. -/
def rssMatcher.Name (m : rssMatcher) : String := m.toFeed.Name

/-- Field promotion of the embedded `Feed`. -/
def rssMatcher.Type_ (m : rssMatcher) : String := m.toFeed.Type_

/-! ## The outside world -/

/-- The library calls made by `rss.go`, as parameters of the embedding. -/
structure World where
  /-- The call `http.Get(uri)`. -/
  Get : String → Except GoError Response
  /-- The call `xml.NewDecoder(body).Decode(&document)`. -/
  Decode : String → Except GoError document
  /-- The call `regexp.MatchString(pattern, s)`. -/
  MatchString : String → String → Except GoError Bool

/-- Calls that leave the program, in the order they happen. -/
inductive Event where
  | logPrintf (line : String)
  | httpGet (uri : String)
  | xmlDecode (body : String)
  | bodyClose (body : String)
  | matchString (pattern : String) (s : String)
  deriving DecidableEq, Repr

/-! ## `retrieve` (lines 104-128) -/

/-- retrieve performs a HTTP Get request for the rss feed and unmarshals the
results. Returns the pair `(*document, error)` and the trace of calls. -/
def rssMatcher.retrieve (w : World) (m : rssMatcher) :
    (Option document × Option GoError) × List Event :=
  if m.Uri = "" then
    ((none, some (errors.New "No rss feed uri provided")), [])
  else
    -- Retrieve the rss feed document from the web.
    match w.Get m.Uri with
    | .error err => ((none, some err), [Event.httpGet m.Uri])
    | .ok resp =>
      -- `defer resp.Body.Close()`: runs once, when the function returns.
      let deferred := [Event.bodyClose resp.Body]
      -- Unmarshal the rss feed document into our struct type.
      match w.Decode resp.Body with
      | .error err =>
        ((none, some err), [Event.httpGet m.Uri, Event.xmlDecode resp.Body] ++ deferred)
      | .ok document =>
        ((some document, none), [Event.httpGet m.Uri, Event.xmlDecode resp.Body] ++ deferred)

/-! ## `Match` (lines 59-102) -/

/-- The `for _, channelItem := range document.Channel.Item` loop of `Match`,
started with the items still to visit and the current `results`; returns what
`Match` returns when the loop is left. -/
def rssMatcher.Match.loop (w : World) (searchTerm : String) :
    List item → Slice Result → (Slice Result × Option GoError) × List Event
  | [], results => ((results, none), [])
  | channelItem :: rest, results =>
    -- Check the title for the search term.
    match w.MatchString searchTerm channelItem.Title with
    | .error err => ((none, some err), [Event.matchString searchTerm channelItem.Title])
    | .ok matched =>
      -- If we found a match save the result.
      let results :=
        if matched then
          results.append { Field := "Title", Content := channelItem.Title }
        else results
      -- Check the description for the search term.
      match w.MatchString searchTerm channelItem.Description with
      | .error err =>
        ((none, some err),
          [Event.matchString searchTerm channelItem.Title,
           Event.matchString searchTerm channelItem.Description])
      | .ok matched =>
        -- If we found a match save the result.
        let results :=
          if matched then
            results.append { Field := "Description", Content := channelItem.Description }
          else results
        let r := rssMatcher.Match.loop w searchTerm rest results
        (r.1,
          Event.matchString searchTerm channelItem.Title ::
          Event.matchString searchTerm channelItem.Description :: r.2)

/-- Match looks at the document for the specified search term. Returns the
pair `([]Result, error)` and the trace of calls. -/
def rssMatcher.Match (w : World) (m : rssMatcher) (searchTerm : String) :
    (Slice Result × Option GoError) × List Event :=
  let line :=
    "Search Feed Type[" ++ m.Type_ ++ "] Site[" ++ m.Name ++ "] For Uri[" ++ m.Uri ++ "]\n"
  -- Retrieve the data to search.
  match rssMatcher.retrieve w m with
  | ((_, some err), tr) => ((none, some err), Event.logPrintf line :: tr)
  | ((none, none), tr) =>
    -- `document.Channel` on a nil pointer; not reachable, since `retrieve`
    -- never returns a nil document together with a nil error
    ((none, none), Event.logPrintf line :: tr)
  | ((some document, none), tr) =>
    let r := rssMatcher.Match.loop w searchTerm document.Channel.Item none
    (r.1, Event.logPrintf line :: (tr ++ r.2))

/-! ## A concrete world for examples -/

/-- Whether the characters `p` start the characters `s`. -/
def startsWith : List Char → List Char → Bool
  | [], _ => true
  | _ :: _, [] => false
  | p :: ps, c :: cs => p == c && startsWith ps cs

/-- Whether the characters `p` occur consecutively somewhere in `s`. -/
def containsSub (p : List Char) : List Char → Bool
  | [] => startsWith p []
  | c :: cs => startsWith p (c :: cs) || containsSub p cs

/-- A small regular-expression engine: the pattern `(` does not compile, every
other pattern is read as a literal and searched for as a substring. -/
def demoMatchString (pattern s : String) : Except GoError Bool :=
  if pattern = "(" then .error (errors.New "error parsing regexp: missing closing )")
  else .ok (containsSub pattern.data s.data)

/-- An item with the given title and description, all other fields empty. -/
def mkItem (title description : String) : item :=
  { XMLName := ⟨"", "item"⟩, PubDate := "", Title := title, Description := description,
    Link := "", GUID := "", GeoRssPoint := "" }

/-- A document with the given items, all other fields empty. -/
def mkDocument (items : List item) : document :=
  { XMLName := ⟨"", "rss"⟩,
    Channel :=
      { XMLName := ⟨"", "channel"⟩, Title := "", Description := "", Link := "", PubDate := "",
        LastBuildDate := "", TTL := "", Language := "", ManagingEditor := "", WebMaster := "",
        Image := { XMLName := ⟨"", "image"⟩, URL := "", Title := "", Link := "" },
        Item := items } }

/-- The two-item feed of the specification's scenario. -/
def goFeed : document :=
  mkDocument [mkItem "Go 1.0 Released" "announcement", mkItem "Weather" "Go programming tips"]

/-- A feed with the titles and descriptions of `goFeed` whose items, channel
and image differ from it in every other field. -/
def goFeedMirror : document :=
  { XMLName := ⟨"", "rss"⟩,
    Channel :=
      { XMLName := ⟨"", "channel"⟩, Title := "Mirror", Description := "a mirror",
        Link := "http://mirror.example", PubDate := "Mon", LastBuildDate := "Tue", TTL := "60",
        Language := "en", ManagingEditor := "ed", WebMaster := "wm",
        Image := { XMLName := ⟨"", "image"⟩, URL := "logo.png", Title := "logo", Link := "l" },
        Item :=
          [{ XMLName := ⟨"", "item"⟩, PubDate := "Wed", Title := "Go 1.0 Released",
             Description := "announcement", Link := "http://mirror.example/1", GUID := "1",
             GeoRssPoint := "45.256 -71.92" },
           { XMLName := ⟨"", "item"⟩, PubDate := "Thu", Title := "Weather",
             Description := "Go programming tips", Link := "http://mirror.example/2",
             GUID := "2", GeoRssPoint := "" }] } }

/-- A world with four hosts: `http://go.example/feed` serves a body decoding to
`goFeed`, `http://mirror.example/feed` one decoding to `goFeedMirror`,
`http://empty.example/feed` one decoding to a channel without items,
`http://bad.example/feed` a body that is not XML (status 404); any other host
cannot be reached. -/
def demoWorld : World where
  Get := fun uri =>
    if uri = "http://go.example/feed" then .ok ⟨200, "go"⟩
    else if uri = "http://mirror.example/feed" then .ok ⟨200, "mirror"⟩
    else if uri = "http://empty.example/feed" then .ok ⟨200, "empty"⟩
    else if uri = "http://bad.example/feed" then .ok ⟨404, "<html>"⟩
    else .error (errors.New "dial tcp: no such host")
  Decode := fun body =>
    if body = "go" then .ok goFeed
    else if body = "mirror" then .ok goFeedMirror
    else if body = "empty" then .ok (mkDocument [])
    else .error (errors.New "XML syntax error")
  MatchString := demoMatchString

/-- The world `demoWorld` in which `http://go.example/feed` answers with status
500 and `http://bad.example/feed` with status 200, the bodies being the same. -/
def demoWorldOtherStatus : World where
  Get := fun uri =>
    if uri = "http://go.example/feed" then .ok ⟨500, "go"⟩
    else if uri = "http://bad.example/feed" then .ok ⟨200, "<html>"⟩
    else demoWorld.Get uri
  Decode := demoWorld.Decode
  MatchString := demoWorld.MatchString

/-- The world `demoWorld` with an engine that fails on the text `Weather` and
nowhere else (which `regexp.MatchString` does not do): a check can then fail
after earlier items have matched. -/
def flakyWorld : World where
  Get := demoWorld.Get
  Decode := demoWorld.Decode
  MatchString := fun pattern s =>
    if s = "Weather" then .error (errors.New "regexp: evaluation failed")
    else demoMatchString pattern s

/-- The world `demoWorld` with an engine whose error for the pattern `(` quotes
the text it was evaluated on: whether the pattern is accepted does not depend
on the text, the reported error value does. -/
def quotingWorld : World where
  Get := demoWorld.Get
  Decode := demoWorld.Decode
  MatchString := fun pattern s =>
    if pattern = "(" then .error (errors.New ("error parsing regexp on " ++ s))
    else .ok (containsSub pattern.data s.data)

/-- A matcher for the feed at `uri`. -/
def mkMatcher (uri : String) : rssMatcher :=
  ⟨{ Name := "site", Uri := uri, Type_ := "rss" }⟩

/-! ## Vocabulary of the statements -/

/-- Whether `regexp.MatchString` reports a match (a rejected pattern matches
nothing). -/
def World.isMatch (w : World) (pattern s : String) : Bool :=
  match w.MatchString pattern s with
  | .ok matched => matched
  | .error _ => false

/-- The engine accepts `pattern`: evaluating it never reports an error. -/
def World.Accepts (w : World) (pattern : String) : Prop :=
  ∀ s, ∃ matched, w.MatchString pattern s = .ok matched

/-- The engine rejects `pattern`: evaluating it always reports an error. -/
def World.Rejects (w : World) (pattern : String) : Prop :=
  ∀ s, ∃ err, w.MatchString pattern s = .error err

/-- What one item contributes according to the specification: a `Title`
result if the title matches, then a `Description` result if the description
matches. -/
def itemResults (w : World) (searchTerm : String) (it : item) : List Result :=
  (if w.isMatch searchTerm it.Title then [{ Field := "Title", Content := it.Title }] else []) ++
  (if w.isMatch searchTerm it.Description then
    [{ Field := "Description", Content := it.Description }] else [])

/-- Successive `append`s of the elements of `l`. -/
def Slice.appendAll {α : Type} (s : Slice α) (l : List α) : Slice α :=
  l.foldl Slice.append s

/-- Number of `Body.Close` calls in a trace. -/
def closeCount (tr : List Event) : Nat :=
  (tr.filter (fun e => match e with | Event.bodyClose _ => true | _ => false)).length

/-- Number of `http.Get` calls in a trace. -/
def getCount (tr : List Event) : Nat :=
  (tr.filter (fun e => match e with | Event.httpGet _ => true | _ => false)).length

/-- The `regexp.MatchString` calls of a trace, in order. -/
def regexCalls (tr : List Event) : List (String × String) :=
  tr.filterMap (fun e => match e with | Event.matchString p t => some (p, t) | _ => none)

/-- The scan of the validated variant: the loop of `Match` run with a matcher
that cannot fail. -/
def scanInfallible (isMatch : String → Bool) : List item → Slice Result → Slice Result
  | [], results => results
  | channelItem :: rest, results =>
    let results :=
      if isMatch channelItem.Title then
        results.append { Field := "Title", Content := channelItem.Title }
      else results
    let results :=
      if isMatch channelItem.Description then
        results.append { Field := "Description", Content := channelItem.Description }
      else results
    scanInfallible isMatch rest results

/-- The variant that `Match` is compared with: after `retrieve`, the pattern is
validated once before the loop (one evaluation of the engine, on the text
`probe`), and the items are then scanned with a matcher that cannot fail. -/
def rssMatcher.MatchValidated (w : World) (m : rssMatcher) (searchTerm probe : String) :
    Slice Result × Option GoError :=
  match (rssMatcher.retrieve w m).1 with
  | (_, some err) => (none, some err)
  | (none, none) => (none, none)
  | (some document, none) =>
    match w.MatchString searchTerm probe with
    | .error err => (none, some err)
    | .ok _ => (scanInfallible (w.isMatch searchTerm) document.Channel.Item none, none)

/-! ## Basic facts -/

theorem Slice.appendAll_some {α : Type} (l xs : List α) :
    Slice.appendAll (some xs) l = some (xs ++ l) := by
  induction l generalizing xs with
  | nil => simp [Slice.appendAll]
  | cons x l ih =>
    have h := ih (xs ++ [x])
    simp only [Slice.appendAll, List.foldl_cons, Slice.append] at h ⊢
    simpa using h

theorem Slice.appendAll_none {α : Type} (l : List α) :
    Slice.appendAll none l = Slice.ofList l := by
  cases l with
  | nil => rfl
  | cons x l =>
    have h := Slice.appendAll_some l [x]
    simp only [Slice.appendAll, List.foldl_cons, Slice.append, Slice.ofList] at h ⊢
    simpa using h

theorem Slice.appendAll_append {α : Type} (s : Slice α) (l₁ l₂ : List α) :
    Slice.appendAll s (l₁ ++ l₂) = Slice.appendAll (Slice.appendAll s l₁) l₂ := by
  simp [Slice.appendAll, List.foldl_append]

theorem Slice.toList_ofList {α : Type} (l : List α) : Slice.toList (Slice.ofList l) = l := by
  cases l <;> rfl

/-- The loop over items the engine accepts on: every contribution is appended
in order and no error is reported. -/
theorem loop_accepted (w : World) (searchTerm : String) :
    ∀ (items : List item) (acc : Slice Result),
      (∀ it ∈ items, (∃ b, w.MatchString searchTerm it.Title = .ok b) ∧
        (∃ b, w.MatchString searchTerm it.Description = .ok b)) →
      (rssMatcher.Match.loop w searchTerm items acc).1 =
        (Slice.appendAll acc (items.flatMap (itemResults w searchTerm)), none) := by
  intro items
  induction items with
  | nil => intro acc _; simp [rssMatcher.Match.loop, Slice.appendAll]
  | cons it rest ih =>
    intro acc h
    obtain ⟨⟨b₁, h₁⟩, ⟨b₂, h₂⟩⟩ := h it (List.mem_cons_self _ _)
    have hrest := fun acc' => ih acc' (fun x hx => h x (List.mem_cons_of_mem _ hx))
    simp only [rssMatcher.Match.loop, h₁, h₂, hrest, List.flatMap_cons, Slice.appendAll_append]
    cases b₁ <;> cases b₂ <;>
      simp [itemResults, World.isMatch, h₁, h₂, Slice.appendAll]

/-- The loop stops at the first failing check: after items on which both
checks succeed, a failing title check returns nil results and its error. -/
theorem loop_title_error (w : World) (searchTerm : String) (it : item) (post : List item)
    (err : GoError) (hit : w.MatchString searchTerm it.Title = .error err) :
    ∀ (pre : List item) (acc : Slice Result),
      (∀ x ∈ pre, (∃ b, w.MatchString searchTerm x.Title = .ok b) ∧
        (∃ b, w.MatchString searchTerm x.Description = .ok b)) →
      (rssMatcher.Match.loop w searchTerm (pre ++ it :: post) acc).1 = (none, some err) := by
  intro pre
  induction pre with
  | nil => intro acc _; simp [rssMatcher.Match.loop, hit]
  | cons x pre ih =>
    intro acc h
    obtain ⟨⟨b₁, h₁⟩, ⟨b₂, h₂⟩⟩ := h x (List.mem_cons_self _ _)
    have hrest := fun acc' => ih acc' (fun y hy => h y (List.mem_cons_of_mem _ hy))
    simp only [List.cons_append, rssMatcher.Match.loop, h₁, h₂]
    exact hrest _

/-- As `loop_title_error`, for a failing description check. -/
theorem loop_description_error (w : World) (searchTerm : String) (it : item) (post : List item)
    (b : Bool) (err : GoError) (htitle : w.MatchString searchTerm it.Title = .ok b)
    (hit : w.MatchString searchTerm it.Description = .error err) :
    ∀ (pre : List item) (acc : Slice Result),
      (∀ x ∈ pre, (∃ b, w.MatchString searchTerm x.Title = .ok b) ∧
        (∃ b, w.MatchString searchTerm x.Description = .ok b)) →
      (rssMatcher.Match.loop w searchTerm (pre ++ it :: post) acc).1 = (none, some err) := by
  intro pre
  induction pre with
  | nil => intro acc _; simp [rssMatcher.Match.loop, hit, htitle]
  | cons x pre ih =>
    intro acc h
    obtain ⟨⟨b₁, h₁⟩, ⟨b₂, h₂⟩⟩ := h x (List.mem_cons_self _ _)
    have hrest := fun acc' => ih acc' (fun y hy => h y (List.mem_cons_of_mem _ hy))
    simp only [List.cons_append, rssMatcher.Match.loop, h₁, h₂]
    exact hrest _

/-- The loop never returns a non-nil slice together with an error. -/
theorem loop_results_nil_of_error (w : World) (searchTerm : String) :
    ∀ (items : List item) (acc : Slice Result) (err : GoError),
      (rssMatcher.Match.loop w searchTerm items acc).1.2 = some err →
      (rssMatcher.Match.loop w searchTerm items acc).1.1 = none := by
  intro items
  induction items with
  | nil => intro acc err h; simp [rssMatcher.Match.loop] at h
  | cons it rest ih =>
    intro acc err h
    simp only [rssMatcher.Match.loop] at h ⊢
    cases h₁ : w.MatchString searchTerm it.Title with
    | error e => simp [h₁]
    | ok b₁ =>
      cases h₂ : w.MatchString searchTerm it.Description with
      | error e => simp [h₁, h₂]
      | ok b₂ =>
        simp only [h₁, h₂] at h ⊢
        exact ih _ err h

/-- The loop reads its items only through `Title` and `Description`. -/
theorem loop_congr (w : World) (searchTerm : String) :
    ∀ (items₁ items₂ : List item) (acc : Slice Result),
      items₁.map (fun it => (it.Title, it.Description)) =
        items₂.map (fun it => (it.Title, it.Description)) →
      rssMatcher.Match.loop w searchTerm items₁ acc =
        rssMatcher.Match.loop w searchTerm items₂ acc := by
  intro items₁
  induction items₁ with
  | nil =>
    intro items₂ acc h
    cases items₂ with
    | nil => rfl
    | cons b l => simp at h
  | cons a l ih =>
    intro items₂ acc h
    cases items₂ with
    | nil => simp at h
    | cons b l₂ =>
      simp only [List.map_cons, List.cons.injEq, Prod.mk.injEq] at h
      obtain ⟨⟨ht, hd⟩, hl⟩ := h
      simp only [rssMatcher.Match.loop, ht, hd]
      cases w.MatchString searchTerm b.Title with
      | error e => rfl
      | ok b₁ =>
        cases w.MatchString searchTerm b.Description with
        | error e => rfl
        | ok b₂ => simp only [ih l₂ _ hl]

/-- What `retrieve` returns is decided by the URI, the GET and the decoder. -/
theorem retrieve_cases (w : World) (m : rssMatcher) :
    (m.Uri = "" ∧ rssMatcher.retrieve w m =
        ((none, some (errors.New "No rss feed uri provided")), [])) ∨
    (m.Uri ≠ "" ∧ ∃ err, w.Get m.Uri = .error err ∧
        rssMatcher.retrieve w m = ((none, some err), [Event.httpGet m.Uri])) ∨
    (m.Uri ≠ "" ∧ ∃ resp err, w.Get m.Uri = .ok resp ∧ w.Decode resp.Body = .error err ∧
        rssMatcher.retrieve w m = ((none, some err),
          [Event.httpGet m.Uri, Event.xmlDecode resp.Body, Event.bodyClose resp.Body])) ∨
    (m.Uri ≠ "" ∧ ∃ resp doc, w.Get m.Uri = .ok resp ∧ w.Decode resp.Body = .ok doc ∧
        rssMatcher.retrieve w m = ((some doc, none),
          [Event.httpGet m.Uri, Event.xmlDecode resp.Body, Event.bodyClose resp.Body])) := by
  by_cases hu : m.Uri = ""
  · left; simp [rssMatcher.retrieve, hu]
  · right
    cases hg : w.Get m.Uri with
    | error err => left; simp [rssMatcher.retrieve, hu, hg]
    | ok resp =>
      right
      cases hd : w.Decode resp.Body with
      | error err => left; exact ⟨hu, resp, err, rfl, hd, by simp [rssMatcher.retrieve, hu, hg, hd]⟩
      | ok doc => right; exact ⟨hu, resp, doc, rfl, hd, by simp [rssMatcher.retrieve, hu, hg, hd]⟩

/-- When `retrieve` fails, `Match` returns nil results and the same error. -/
theorem Match_of_retrieve_error (w : World) (m : rssMatcher) (searchTerm : String)
    (d : Option document) (err : GoError) (tr : List Event)
    (h : rssMatcher.retrieve w m = ((d, some err), tr)) :
    (rssMatcher.Match w m searchTerm).1 = (none, some err) := by
  simp [rssMatcher.Match, h]

/-- When `retrieve` succeeds, `Match` returns what the loop returns. -/
theorem Match_of_retrieve_ok (w : World) (m : rssMatcher) (searchTerm : String)
    (doc : document) (tr : List Event)
    (h : rssMatcher.retrieve w m = ((some doc, none), tr)) :
    rssMatcher.Match w m searchTerm =
      ((rssMatcher.Match.loop w searchTerm doc.Channel.Item none).1,
        Event.logPrintf ("Search Feed Type[" ++ m.Type_ ++ "] Site[" ++ m.Name ++
          "] For Uri[" ++ m.Uri ++ "]\n") ::
          (tr ++ (rssMatcher.Match.loop w searchTerm doc.Channel.Item none).2)) := by
  simp [rssMatcher.Match, h]

/-- The trace of `retrieve` holds no call of the engine. -/
theorem regexCalls_retrieve (w : World) (m : rssMatcher) :
    regexCalls (rssMatcher.retrieve w m).2 = [] := by
  rcases retrieve_cases w m with ⟨_, h⟩ | ⟨_, _, _, h⟩ | ⟨_, _, _, _, _, h⟩ | ⟨_, _, _, _, _, h⟩ <;>
    simp [h, regexCalls]

/-- The infallible scan appends the contributions of the items in order. -/
theorem scanInfallible_eq (w : World) (searchTerm : String) :
    ∀ (items : List item) (acc : Slice Result),
      scanInfallible (w.isMatch searchTerm) items acc =
        Slice.appendAll acc (items.flatMap (itemResults w searchTerm)) := by
  intro items
  induction items with
  | nil => intro acc; simp [scanInfallible, Slice.appendAll]
  | cons it rest ih =>
    intro acc
    simp only [scanInfallible, ih, List.flatMap_cons, Slice.appendAll_append]
    cases h₁ : w.isMatch searchTerm it.Title <;> cases h₂ : w.isMatch searchTerm it.Description <;>
      simp [itemResults, h₁, h₂, Slice.appendAll]

/-- An engine whose accept/reject decision ignores the text either accepts a
pattern or rejects it. -/
theorem accepts_or_rejects (w : World) (pattern : String)
    (hind : ∀ s t, (w.MatchString pattern s).toBool = (w.MatchString pattern t).toBool) :
    w.Accepts pattern ∨ w.Rejects pattern := by
  cases h : w.MatchString pattern "" with
  | ok b =>
    left
    intro s
    have hs := hind s ""
    rw [h] at hs
    cases hms : w.MatchString pattern s with
    | ok b' => exact ⟨b', rfl⟩
    | error e => rw [hms] at hs; simp [Except.toBool] at hs
  | error e =>
    right
    intro s
    have hs := hind s ""
    rw [h] at hs
    cases hms : w.MatchString pattern s with
    | ok b' => rw [hms] at hs; simp [Except.toBool] at hs
    | error e' => exact ⟨e', rfl⟩

/-! ## Facts about the concrete world -/

theorem demoWorld_accepts_Go : demoWorld.Accepts "Go" := by
  intro s
  exact ⟨containsSub "Go".data s.data, by simp [demoWorld, demoMatchString]⟩

theorem demoWorld_rejects_paren : demoWorld.Rejects "(" := by
  intro s
  exact ⟨errors.New "error parsing regexp: missing closing )", by simp [demoWorld, demoMatchString]⟩

theorem demoWorld_paren_text_independent (s t : String) :
    (demoWorld.MatchString "(" s).toBool = (demoWorld.MatchString "(" t).toBool := by
  simp [demoWorld, demoMatchString]

theorem demoWorld_Go_text_independent (s t : String) :
    (demoWorld.MatchString "Go" s).toBool = (demoWorld.MatchString "Go" t).toBool := by
  simp [demoWorld, demoMatchString, Except.toBool]

theorem quotingWorld_paren_text_independent (s t : String) :
    (quotingWorld.MatchString "(" s).toBool = (quotingWorld.MatchString "(" t).toBool := by
  simp [quotingWorld, Except.toBool]

/-! ## The claims -/

/-- C1: when `retrieve` succeeds and the engine accepts the search term, `Match`
returns a nil error and the concatenation, over the items in document order, of
a `Title` result if the title matches followed by a `Description` result if the
description matches; an item whose title and description both match contributes
exactly these two results, title first, between the results of the items
before it and those of the items after it. -/
theorem C1_Match_results (w : World) (m : rssMatcher) (searchTerm : String)
    (doc : document) (tr : List Event)
    (hret : rssMatcher.retrieve w m = ((some doc, none), tr))
    (hacc : w.Accepts searchTerm) :
    (rssMatcher.Match w m searchTerm).1 =
      (Slice.ofList (doc.Channel.Item.flatMap (itemResults w searchTerm)), none) ∧
    (∀ pre it post, doc.Channel.Item = pre ++ it :: post →
      w.isMatch searchTerm it.Title = true → w.isMatch searchTerm it.Description = true →
      Slice.toList (rssMatcher.Match w m searchTerm).1.1 =
        pre.flatMap (itemResults w searchTerm) ++
          [{ Field := "Title", Content := it.Title },
           { Field := "Description", Content := it.Description }] ++
          post.flatMap (itemResults w searchTerm)) := by
  have hmain : (rssMatcher.Match w m searchTerm).1 =
      (Slice.ofList (doc.Channel.Item.flatMap (itemResults w searchTerm)), none) := by
    rw [Match_of_retrieve_ok w m searchTerm doc tr hret]
    rw [loop_accepted w searchTerm doc.Channel.Item none (fun it _ => ⟨hacc _, hacc _⟩)]
    rw [Slice.appendAll_none]
  refine ⟨hmain, ?_⟩
  intro pre it post hitems ht hd
  rw [hmain, Slice.toList_ofList, hitems]
  simp [itemResults, ht, hd]

/-- C1 at the scenario of the specification: the two-item feed searched for
`Go` gives the first title and the second description. -/
theorem C1_Match_results_witness :
    rssMatcher.retrieve demoWorld (mkMatcher "http://go.example/feed") =
      ((some goFeed, none),
        [Event.httpGet "http://go.example/feed", Event.xmlDecode "go", Event.bodyClose "go"]) ∧
    demoWorld.Accepts "Go" ∧
    (rssMatcher.Match demoWorld (mkMatcher "http://go.example/feed") "Go").1 =
      (some [{ Field := "Title", Content := "Go 1.0 Released" },
             { Field := "Description", Content := "Go programming tips" }], none) :=
  ⟨by decide, demoWorld_accepts_Go,
    (C1_Match_results demoWorld (mkMatcher "http://go.example/feed") "Go" goFeed _
      rfl demoWorld_accepts_Go).1.trans (by decide)⟩

/-- C2 as stated fails: with a feed of zero items the pattern is never
evaluated, so a rejected search term yields nil results and a nil error. -/
theorem C2_invalid_pattern_counterexample :
    ¬ (∀ (w : World) (m : rssMatcher) (searchTerm : String) (doc : document) (tr : List Event),
        rssMatcher.retrieve w m = ((some doc, none), tr) → w.Rejects searchTerm →
        ∃ err, (rssMatcher.Match w m searchTerm).1 = (none, some err)) := by
  intro h
  obtain ⟨err, herr⟩ := h demoWorld (mkMatcher "http://empty.example/feed") "(" (mkDocument [])
    [Event.httpGet "http://empty.example/feed", Event.xmlDecode "empty", Event.bodyClose "empty"]
    (by decide) demoWorld_rejects_paren
  have hval : (rssMatcher.Match demoWorld (mkMatcher "http://empty.example/feed") "(").1 =
      (none, none) := by decide
  rw [hval] at herr
  simp at herr

/-- C2, amended: when `retrieve` succeeds with a document of at least one item
and the engine rejects the search term, `Match` returns nil results together
with the error reported by the check of the first item's title. -/
theorem C2_invalid_pattern (w : World) (m : rssMatcher) (searchTerm : String)
    (doc : document) (tr : List Event) (it : item) (rest : List item)
    (hret : rssMatcher.retrieve w m = ((some doc, none), tr))
    (hitems : doc.Channel.Item = it :: rest)
    (hrej : w.Rejects searchTerm) :
    ∃ err, w.MatchString searchTerm it.Title = .error err ∧
      (rssMatcher.Match w m searchTerm).1 = (none, some err) := by
  obtain ⟨err, herr⟩ := hrej it.Title
  refine ⟨err, herr, ?_⟩
  rw [Match_of_retrieve_ok w m searchTerm doc tr hret, hitems]
  simp [rssMatcher.Match.loop, herr]

/-- C2 (amended) on the two-item feed searched for the pattern `(`. -/
theorem C2_invalid_pattern_witness :
    rssMatcher.retrieve demoWorld (mkMatcher "http://go.example/feed") =
      ((some goFeed, none),
        [Event.httpGet "http://go.example/feed", Event.xmlDecode "go", Event.bodyClose "go"]) ∧
    goFeed.Channel.Item =
      mkItem "Go 1.0 Released" "announcement" :: [mkItem "Weather" "Go programming tips"] ∧
    demoWorld.Rejects "(" ∧
    ∃ err, demoWorld.MatchString "(" (mkItem "Go 1.0 Released" "announcement").Title = .error err ∧
      (rssMatcher.Match demoWorld (mkMatcher "http://go.example/feed") "(").1 = (none, some err) :=
  ⟨by decide, rfl, demoWorld_rejects_paren,
    C2_invalid_pattern demoWorld (mkMatcher "http://go.example/feed") "(" goFeed _ _ _
      rfl rfl demoWorld_rejects_paren⟩

/-- C3: when `retrieve` succeeds with a channel of zero items, `Match` returns
the nil result slice and a nil error, whatever the search term. -/
theorem C3_no_items (w : World) (m : rssMatcher) (searchTerm : String)
    (doc : document) (tr : List Event)
    (hret : rssMatcher.retrieve w m = ((some doc, none), tr))
    (hitems : doc.Channel.Item = []) :
    (rssMatcher.Match w m searchTerm).1 = (none, none) := by
  rw [Match_of_retrieve_ok w m searchTerm doc tr hret, hitems]
  simp [rssMatcher.Match.loop]

/-- C3 on the empty feed of the concrete world. -/
theorem C3_no_items_witness :
    rssMatcher.retrieve demoWorld (mkMatcher "http://empty.example/feed") =
      ((some (mkDocument []), none),
        [Event.httpGet "http://empty.example/feed", Event.xmlDecode "empty",
         Event.bodyClose "empty"]) ∧
    (mkDocument []).Channel.Item = [] ∧
    (rssMatcher.Match demoWorld (mkMatcher "http://empty.example/feed") "Go").1 = (none, none) :=
  ⟨by decide, rfl,
    C3_no_items demoWorld (mkMatcher "http://empty.example/feed") "Go" (mkDocument []) _
      rfl rfl⟩

/-- C4: `Match` is all-or-nothing. Whenever `retrieve` fails (empty URI, failed
GET, or failed decode), and whenever a check fails at some item after items on
which both checks succeeded, `Match` returns nil results together with exactly
the error of the failing step; and a non-nil result slice only comes with a nil
error. -/
theorem C4_all_or_nothing (w : World) (m : rssMatcher) (searchTerm : String) :
    (∀ d err tr, rssMatcher.retrieve w m = ((d, some err), tr) →
      (rssMatcher.Match w m searchTerm).1 = (none, some err)) ∧
    (m.Uri = "" →
      (rssMatcher.Match w m searchTerm).1 =
        (none, some (errors.New "No rss feed uri provided"))) ∧
    (∀ err, m.Uri ≠ "" → w.Get m.Uri = .error err →
      (rssMatcher.Match w m searchTerm).1 = (none, some err)) ∧
    (∀ resp err, m.Uri ≠ "" → w.Get m.Uri = .ok resp → w.Decode resp.Body = .error err →
      (rssMatcher.Match w m searchTerm).1 = (none, some err)) ∧
    (∀ doc tr pre it post err, rssMatcher.retrieve w m = ((some doc, none), tr) →
      doc.Channel.Item = pre ++ it :: post →
      (∀ x ∈ pre, (∃ b, w.MatchString searchTerm x.Title = .ok b) ∧
        (∃ b, w.MatchString searchTerm x.Description = .ok b)) →
      (w.MatchString searchTerm it.Title = .error err ∨
        ((∃ b, w.MatchString searchTerm it.Title = .ok b) ∧
          w.MatchString searchTerm it.Description = .error err)) →
      (rssMatcher.Match w m searchTerm).1 = (none, some err)) ∧
    ((rssMatcher.Match w m searchTerm).1.1 ≠ none →
      (rssMatcher.Match w m searchTerm).1.2 = none) := by
  refine ⟨?_, ?_, ?_, ?_, ?_, ?_⟩
  · intro d err tr h
    exact Match_of_retrieve_error w m searchTerm d err tr h
  · intro hu
    exact Match_of_retrieve_error w m searchTerm none _ [] (by simp [rssMatcher.retrieve, hu])
  · intro err hu hg
    exact Match_of_retrieve_error w m searchTerm none err [Event.httpGet m.Uri]
      (by simp [rssMatcher.retrieve, hu, hg])
  · intro resp err hu hg hd
    exact Match_of_retrieve_error w m searchTerm none err
      [Event.httpGet m.Uri, Event.xmlDecode resp.Body, Event.bodyClose resp.Body]
      (by simp [rssMatcher.retrieve, hu, hg, hd])
  · intro doc tr pre it post err hret hitems hpre hfail
    rw [Match_of_retrieve_ok w m searchTerm doc tr hret, hitems]
    rcases hfail with ht | ⟨⟨b, hb⟩, hd⟩
    · exact loop_title_error w searchTerm it post err ht pre none hpre
    · exact loop_description_error w searchTerm it post b err hb hd pre none hpre
  · intro hne
    cases herr : (rssMatcher.Match w m searchTerm).1.2 with
    | none => rfl
    | some err =>
      exfalso
      apply hne
      rcases hr : rssMatcher.retrieve w m with ⟨⟨d, e⟩, tr⟩
      cases e with
      | some e' => rw [Match_of_retrieve_error w m searchTerm d e' tr hr]
      | none =>
        cases d with
        | none => simp [rssMatcher.Match, hr]
        | some doc =>
          rw [Match_of_retrieve_ok w m searchTerm doc tr hr] at herr ⊢
          exact loop_results_nil_of_error w searchTerm _ _ err herr

/-- C4 at four failures: an empty URI, an unreachable host, a body that is not
XML, and a check failing at the second item after the first item matched. -/
theorem C4_all_or_nothing_witness :
    (rssMatcher.Match demoWorld (mkMatcher "") "Go").1 =
      (none, some (errors.New "No rss feed uri provided")) ∧
    (rssMatcher.Match demoWorld (mkMatcher "http://nowhere.example/feed") "Go").1 =
      (none, some (errors.New "dial tcp: no such host")) ∧
    (rssMatcher.Match demoWorld (mkMatcher "http://bad.example/feed") "Go").1 =
      (none, some (errors.New "XML syntax error")) ∧
    (flakyWorld.MatchString "Go" "Go 1.0 Released" = .ok true ∧
      (rssMatcher.Match flakyWorld (mkMatcher "http://go.example/feed") "Go").1 =
        (none, some (errors.New "regexp: evaluation failed"))) :=
  ⟨(C4_all_or_nothing demoWorld (mkMatcher "") "Go").2.1 rfl,
    (C4_all_or_nothing demoWorld (mkMatcher "http://nowhere.example/feed") "Go").2.2.1
      (errors.New "dial tcp: no such host") (by decide) rfl,
    (C4_all_or_nothing demoWorld (mkMatcher "http://bad.example/feed") "Go").2.2.2.1
      ⟨404, "<html>"⟩ (errors.New "XML syntax error") (by decide) rfl rfl,
    rfl,
    (C4_all_or_nothing flakyWorld (mkMatcher "http://go.example/feed") "Go").2.2.2.2.1
      goFeed _ [mkItem "Go 1.0 Released" "announcement"] (mkItem "Weather" "Go programming tips")
      [] (errors.New "regexp: evaluation failed") rfl rfl
      (by
        intro x hx
        rw [List.mem_singleton] at hx
        subst hx
        exact ⟨⟨true, rfl⟩, ⟨false, rfl⟩⟩)
      (Or.inl rfl)⟩

/-- C5: with an empty URI, `retrieve` fails with the configuration error and an
empty trace (no HTTP request), and `Match` returns nil results with that error,
its trace holding no HTTP request either. -/
theorem C5_empty_uri (w : World) (m : rssMatcher) (searchTerm : String) (h : m.Uri = "") :
    rssMatcher.retrieve w m = ((none, some (errors.New "No rss feed uri provided")), []) ∧
    (rssMatcher.Match w m searchTerm).1 =
      (none, some (errors.New "No rss feed uri provided")) ∧
    getCount (rssMatcher.Match w m searchTerm).2 = 0 := by
  have hr : rssMatcher.retrieve w m =
      ((none, some (errors.New "No rss feed uri provided")), []) := by
    simp [rssMatcher.retrieve, h]
  refine ⟨hr, ?_, ?_⟩
  · simp [rssMatcher.Match, hr]
  · simp [rssMatcher.Match, hr, getCount]

/-- C5 on a matcher without URI in the concrete world. -/
theorem C5_empty_uri_witness :
    (mkMatcher "").Uri = "" ∧
    rssMatcher.retrieve demoWorld (mkMatcher "") =
      ((none, some (errors.New "No rss feed uri provided")), []) ∧
    (rssMatcher.Match demoWorld (mkMatcher "") "Go").1 =
      (none, some (errors.New "No rss feed uri provided")) ∧
    getCount (rssMatcher.Match demoWorld (mkMatcher "") "Go").2 = 0 :=
  ⟨rfl, C5_empty_uri demoWorld (mkMatcher "") "Go" rfl⟩

/-- C6: two successfully retrieved documents whose item sequences agree
position by position on `Title` and `Description` (same length, any other
field free) give the same results and the same error, for every search term. -/
theorem C6_only_title_and_description (w₁ w₂ : World) (m₁ m₂ : rssMatcher)
    (searchTerm : String) (doc₁ doc₂ : document) (tr₁ tr₂ : List Event)
    (hengine : w₁.MatchString = w₂.MatchString)
    (hret₁ : rssMatcher.retrieve w₁ m₁ = ((some doc₁, none), tr₁))
    (hret₂ : rssMatcher.retrieve w₂ m₂ = ((some doc₂, none), tr₂))
    (hagree : doc₁.Channel.Item.map (fun it => (it.Title, it.Description)) =
      doc₂.Channel.Item.map (fun it => (it.Title, it.Description))) :
    (rssMatcher.Match w₁ m₁ searchTerm).1 = (rssMatcher.Match w₂ m₂ searchTerm).1 := by
  rw [Match_of_retrieve_ok w₁ m₁ searchTerm doc₁ tr₁ hret₁,
    Match_of_retrieve_ok w₂ m₂ searchTerm doc₂ tr₂ hret₂]
  have hloop : ∀ items acc, rssMatcher.Match.loop w₁ searchTerm items acc =
      rssMatcher.Match.loop w₂ searchTerm items acc := by
    intro items
    induction items with
    | nil => intro acc; rfl
    | cons it rest ih => intro acc; simp only [rssMatcher.Match.loop, hengine, ih]
  show (rssMatcher.Match.loop w₁ searchTerm doc₁.Channel.Item none).1 =
    (rssMatcher.Match.loop w₂ searchTerm doc₂.Channel.Item none).1
  rw [hloop, loop_congr w₂ searchTerm _ _ none hagree]

/-- C6 on `goFeed` and `goFeedMirror`, which differ outside the titles and
descriptions of their items. -/
theorem C6_only_title_and_description_witness :
    goFeed ≠ goFeedMirror ∧
    goFeed.Channel.Item.map (fun it => (it.Title, it.Description)) =
      goFeedMirror.Channel.Item.map (fun it => (it.Title, it.Description)) ∧
    (rssMatcher.Match demoWorld (mkMatcher "http://go.example/feed") "Go").1 =
      (rssMatcher.Match demoWorld (mkMatcher "http://mirror.example/feed") "Go").1 :=
  ⟨by decide, by decide,
    C6_only_title_and_description demoWorld demoWorld (mkMatcher "http://go.example/feed")
      (mkMatcher "http://mirror.example/feed") "Go" goFeed goFeedMirror _ _ rfl rfl rfl
      (by decide)⟩

/-- C7 as stated fails: the message of the error for an empty URI is not
`no feed URI provided`. -/
theorem C7_message_counterexample :
    ¬ (∀ (w : World) (m : rssMatcher), m.Uri = "" →
        ∃ err, (rssMatcher.retrieve w m).1 = (none, some err) ∧
          err.msg = "no feed URI provided") := by
  intro h
  obtain ⟨err, herr, hmsg⟩ := h demoWorld (mkMatcher "") rfl
  have hval : (rssMatcher.retrieve demoWorld (mkMatcher "")).1 =
      (none, some ⟨"No rss feed uri provided"⟩) := by decide
  rw [hval] at herr
  simp only [Prod.mk.injEq, Option.some.injEq, true_and] at herr
  subst herr
  revert hmsg
  decide

/-- C7, amended: with an empty URI, `retrieve` fails with an error whose
message is exactly `No rss feed uri provided`. -/
theorem C7_message (w : World) (m : rssMatcher) (h : m.Uri = "") :
    ∃ err, (rssMatcher.retrieve w m).1 = (none, some err) ∧
      err.msg = "No rss feed uri provided" :=
  ⟨errors.New "No rss feed uri provided", by simp [rssMatcher.retrieve, h], rfl⟩

/-- C7 (amended) on a matcher without URI in the concrete world. -/
theorem C7_message_witness :
    (mkMatcher "").Uri = "" ∧
    ∃ err, (rssMatcher.retrieve demoWorld (mkMatcher "")).1 = (none, some err) ∧
      err.msg = "No rss feed uri provided" :=
  ⟨rfl, C7_message demoWorld (mkMatcher "") rfl⟩

/-- C8: `retrieve` does not look at the status code. For a non-empty URI, two
worlds with the same decoder and engine whose GET completes with responses of
the same body (whatever their status codes) make `retrieve` return the same
outcome and `Match` the same results and error. -/
theorem C8_status_ignored (w₁ w₂ : World) (m : rssMatcher) (searchTerm : String)
    (r₁ r₂ : Response)
    (huri : m.Uri ≠ "")
    (hdecode : w₁.Decode = w₂.Decode) (hengine : w₁.MatchString = w₂.MatchString)
    (hget₁ : w₁.Get m.Uri = .ok r₁) (hget₂ : w₂.Get m.Uri = .ok r₂)
    (hbody : r₁.Body = r₂.Body) :
    (rssMatcher.retrieve w₁ m).1 = (rssMatcher.retrieve w₂ m).1 ∧
    (rssMatcher.Match w₁ m searchTerm).1 = (rssMatcher.Match w₂ m searchTerm).1 := by
  have hloop : ∀ items acc, rssMatcher.Match.loop w₁ searchTerm items acc =
      rssMatcher.Match.loop w₂ searchTerm items acc := by
    intro items
    induction items with
    | nil => intro acc; rfl
    | cons it rest ih => intro acc; simp only [rssMatcher.Match.loop, hengine, ih]
  have hr : rssMatcher.retrieve w₁ m = rssMatcher.retrieve w₂ m := by
    simp only [rssMatcher.retrieve, huri, if_false, hget₁, hget₂, hdecode, hbody]
  have hfun : rssMatcher.Match.loop w₁ searchTerm = rssMatcher.Match.loop w₂ searchTerm := by
    funext items acc
    exact hloop items acc
  refine ⟨by rw [hr], ?_⟩
  simp only [rssMatcher.Match, hr, hfun]

/-- C8 on `http://go.example/feed` answering 200 in one world and 500 in the
other, with the same body. -/
theorem C8_status_ignored_witness :
    (mkMatcher "http://go.example/feed").Uri ≠ "" ∧
    demoWorld.Get "http://go.example/feed" = .ok ⟨200, "go"⟩ ∧
    demoWorldOtherStatus.Get "http://go.example/feed" = .ok ⟨500, "go"⟩ ∧
    (rssMatcher.retrieve demoWorld (mkMatcher "http://go.example/feed")).1 =
      (rssMatcher.retrieve demoWorldOtherStatus (mkMatcher "http://go.example/feed")).1 ∧
    (rssMatcher.Match demoWorld (mkMatcher "http://go.example/feed") "Go").1 =
      (rssMatcher.Match demoWorldOtherStatus (mkMatcher "http://go.example/feed") "Go").1 :=
  ⟨by decide, rfl, rfl,
    C8_status_ignored demoWorld demoWorldOtherStatus (mkMatcher "http://go.example/feed") "Go"
      ⟨200, "go"⟩ ⟨500, "go"⟩ (by decide) rfl rfl rfl rfl rfl⟩

/-- C9: the deferred `Body.Close` of `retrieve`. When the GET yields a response
the body is closed exactly once, as the last call before `retrieve` returns,
both when decoding succeeds and when it fails; with an empty URI there is no
call at all, and when the GET fails there is the GET and no close. -/
theorem C9_body_closed_once (w : World) (m : rssMatcher) :
    (∀ resp doc, m.Uri ≠ "" → w.Get m.Uri = .ok resp → w.Decode resp.Body = .ok doc →
      closeCount (rssMatcher.retrieve w m).2 = 1 ∧
      (rssMatcher.retrieve w m).2 =
        [Event.httpGet m.Uri, Event.xmlDecode resp.Body, Event.bodyClose resp.Body]) ∧
    (∀ resp err, m.Uri ≠ "" → w.Get m.Uri = .ok resp → w.Decode resp.Body = .error err →
      closeCount (rssMatcher.retrieve w m).2 = 1 ∧
      (rssMatcher.retrieve w m).2 =
        [Event.httpGet m.Uri, Event.xmlDecode resp.Body, Event.bodyClose resp.Body]) ∧
    (m.Uri = "" →
      closeCount (rssMatcher.retrieve w m).2 = 0 ∧ (rssMatcher.retrieve w m).2 = []) ∧
    (∀ err, m.Uri ≠ "" → w.Get m.Uri = .error err →
      closeCount (rssMatcher.retrieve w m).2 = 0 ∧
      (rssMatcher.retrieve w m).2 = [Event.httpGet m.Uri]) := by
  refine ⟨?_, ?_, ?_, ?_⟩
  · intro resp doc hu hg hd
    simp [rssMatcher.retrieve, hu, hg, hd, closeCount]
  · intro resp err hu hg hd
    simp [rssMatcher.retrieve, hu, hg, hd, closeCount]
  · intro hu
    simp [rssMatcher.retrieve, hu, closeCount]
  · intro err hu hg
    simp [rssMatcher.retrieve, hu, hg, closeCount]

/-- C9 on the four exits of `retrieve` in the concrete world. -/
theorem C9_body_closed_once_witness :
    closeCount (rssMatcher.retrieve demoWorld (mkMatcher "http://go.example/feed")).2 = 1 ∧
    closeCount (rssMatcher.retrieve demoWorld (mkMatcher "http://bad.example/feed")).2 = 1 ∧
    closeCount (rssMatcher.retrieve demoWorld (mkMatcher "")).2 = 0 ∧
    closeCount (rssMatcher.retrieve demoWorld (mkMatcher "http://nowhere.example/feed")).2 = 0 :=
  ⟨((C9_body_closed_once demoWorld (mkMatcher "http://go.example/feed")).1
      ⟨200, "go"⟩ goFeed (by decide) rfl rfl).1,
    ((C9_body_closed_once demoWorld (mkMatcher "http://bad.example/feed")).2.1
      ⟨404, "<html>"⟩ (errors.New "XML syntax error") (by decide) rfl rfl).1,
    ((C9_body_closed_once demoWorld (mkMatcher "")).2.2.1 rfl).1,
    ((C9_body_closed_once demoWorld (mkMatcher "http://nowhere.example/feed")).2.2.2
      (errors.New "dial tcp: no such host") (by decide) rfl).1⟩

/-- C10: assume only that whether the engine accepts the search term does not
depend on the text. For a successfully retrieved document with a first item:
`Match` fails if and only if the engine rejects the term; a failure is the
error of the first item's title check, comes with nil results and after that
single call of the engine; `Match` returns the same pair of results and error
as the variant that validates the pattern once before the loop, on the first
item's title, and then scans with a matcher that cannot fail. Whatever text the
variant validates on, it returns the same results as `Match` and fails exactly
when `Match` fails, and it returns the same pair when the reported error does
not depend on the text either. With zero items `Match` never calls the engine
and returns nil results and a nil error, where the variant reports what its
validation reports. -/
theorem C10_validate_once (w : World) (m : rssMatcher) (searchTerm : String)
    (doc : document) (tr : List Event)
    (hret : rssMatcher.retrieve w m = ((some doc, none), tr))
    (hind : ∀ s t, (w.MatchString searchTerm s).toBool = (w.MatchString searchTerm t).toBool) :
    (∀ it rest, doc.Channel.Item = it :: rest →
      ((∃ err, (rssMatcher.Match w m searchTerm).1.2 = some err) ↔ w.Rejects searchTerm) ∧
      (∀ err, (rssMatcher.Match w m searchTerm).1.2 = some err →
        w.MatchString searchTerm it.Title = .error err ∧
        (rssMatcher.Match w m searchTerm).1.1 = none ∧
        regexCalls (rssMatcher.Match w m searchTerm).2 = [(searchTerm, it.Title)]) ∧
      rssMatcher.MatchValidated w m searchTerm it.Title = (rssMatcher.Match w m searchTerm).1 ∧
      (∀ probe,
        (rssMatcher.MatchValidated w m searchTerm probe).1 =
          (rssMatcher.Match w m searchTerm).1.1 ∧
        ((rssMatcher.MatchValidated w m searchTerm probe).2 = none ↔
          (rssMatcher.Match w m searchTerm).1.2 = none)) ∧
      (∀ probe,
        (∀ s t err, w.MatchString searchTerm s = .error err →
          w.MatchString searchTerm t = .error err) →
        rssMatcher.MatchValidated w m searchTerm probe = (rssMatcher.Match w m searchTerm).1)) ∧
    (doc.Channel.Item = [] →
      (rssMatcher.Match w m searchTerm).1 = (none, none) ∧
      regexCalls (rssMatcher.Match w m searchTerm).2 = [] ∧
      ∀ probe, rssMatcher.MatchValidated w m searchTerm probe =
        (none, match w.MatchString searchTerm probe with
          | .error err => some err
          | .ok _ => none)) := by
  have hM := Match_of_retrieve_ok w m searchTerm doc tr hret
  have htr : regexCalls tr = [] := by
    have h := regexCalls_retrieve w m
    rw [hret] at h
    exact h
  have hV : ∀ probe, rssMatcher.MatchValidated w m searchTerm probe =
      match w.MatchString searchTerm probe with
      | .error err => (none, some err)
      | .ok _ => (scanInfallible (w.isMatch searchTerm) doc.Channel.Item none, none) := by
    intro probe
    simp [rssMatcher.MatchValidated, hret]
  refine ⟨?_, ?_⟩
  · intro it rest hitems
    rcases accepts_or_rejects w searchTerm hind with hacc | hrej
    · -- the engine accepts the term: no failure anywhere
      have hres : (rssMatcher.Match w m searchTerm).1 =
          (Slice.ofList (doc.Channel.Item.flatMap (itemResults w searchTerm)), none) := by
        rw [hM, loop_accepted w searchTerm doc.Channel.Item none (fun x _ => ⟨hacc _, hacc _⟩),
          Slice.appendAll_none]
      have hnot : ¬ w.Rejects searchTerm := by
        intro hrej
        obtain ⟨b, hb⟩ := hacc ""
        obtain ⟨e, he⟩ := hrej ""
        rw [hb] at he
        cases he
      have hVok : ∀ probe, rssMatcher.MatchValidated w m searchTerm probe =
          (Slice.ofList (doc.Channel.Item.flatMap (itemResults w searchTerm)), none) := by
        intro probe
        obtain ⟨b, hb⟩ := hacc probe
        rw [hV probe, hb]
        simp only [scanInfallible_eq, Slice.appendAll_none]
      refine ⟨?_, ?_, ?_, ?_, ?_⟩
      · rw [hres]
        simp [hnot]
      · intro err herr
        rw [hres] at herr
        simp at herr
      · rw [hVok it.Title, hres]
      · intro probe
        rw [hVok probe, hres]
        simp
      · intro probe _
        rw [hVok probe, hres]
    · -- the engine rejects the term: the first title check fails
      obtain ⟨e, he⟩ := hrej it.Title
      have hloop : rssMatcher.Match.loop w searchTerm doc.Channel.Item none =
          ((none, some e), [Event.matchString searchTerm it.Title]) := by
        rw [hitems]
        simp [rssMatcher.Match.loop, he]
      have hres : (rssMatcher.Match w m searchTerm).1 = (none, some e) := by
        rw [hM, hloop]
      have hcalls : regexCalls (rssMatcher.Match w m searchTerm).2 = [(searchTerm, it.Title)] := by
        rw [hM, hloop]
        simp only [regexCalls, List.filterMap_cons, List.filterMap_append] at htr ⊢
        rw [htr]
        simp
      refine ⟨?_, ?_, ?_, ?_, ?_⟩
      · rw [hres]
        exact ⟨fun _ => hrej, fun _ => ⟨e, rfl⟩⟩
      · intro err herr
        rw [hres] at herr
        simp only [Option.some.injEq] at herr
        subst herr
        exact ⟨he, by rw [hres], hcalls⟩
      · rw [hV it.Title, he, hres]
      · intro probe
        obtain ⟨e', he'⟩ := hrej probe
        rw [hV probe, he', hres]
        simp
      · intro probe hsame
        obtain ⟨e', he'⟩ := hrej probe
        have := hsame probe it.Title e' he'
        rw [he] at this
        cases this
        rw [hV probe, he', hres]
  · intro hitems
    have hloop : rssMatcher.Match.loop w searchTerm doc.Channel.Item none = ((none, none), []) := by
      rw [hitems]
      simp [rssMatcher.Match.loop]
    refine ⟨by rw [hM, hloop], ?_, ?_⟩
    · rw [hM, hloop]
      simp only [regexCalls, List.filterMap_cons, List.append_nil] at htr ⊢
      exact htr
    · intro probe
      rw [hV probe, hitems]
      cases w.MatchString searchTerm probe <;> simp [scanInfallible]

/-- C10 in the concrete worlds. On the two-item feed `Match` and the variant
validating on the first title return the same pair, for the rejected pattern
`(` and the accepted pattern `Go`, also with the engine of `quotingWorld`,
whose error value depends on the text (there the variant validating on the
empty text reports another error value than `Match`). On the feed without
items `Match` returns no error for `(` and the variant returns the error of
its validation. -/
theorem C10_validate_once_witness :
    (∀ s t, (demoWorld.MatchString "(" s).toBool = (demoWorld.MatchString "(" t).toBool) ∧
    (rssMatcher.Match demoWorld (mkMatcher "http://go.example/feed") "(").1 =
      (none, some (errors.New "error parsing regexp: missing closing )")) ∧
    rssMatcher.MatchValidated demoWorld (mkMatcher "http://go.example/feed") "("
        "Go 1.0 Released" =
      (rssMatcher.Match demoWorld (mkMatcher "http://go.example/feed") "(").1 ∧
    rssMatcher.MatchValidated demoWorld (mkMatcher "http://go.example/feed") "Go"
        "Go 1.0 Released" =
      (rssMatcher.Match demoWorld (mkMatcher "http://go.example/feed") "Go").1 ∧
    rssMatcher.MatchValidated demoWorld (mkMatcher "http://go.example/feed") "(" "" =
      (rssMatcher.Match demoWorld (mkMatcher "http://go.example/feed") "(").1 ∧
    (∀ s t, (quotingWorld.MatchString "(" s).toBool =
      (quotingWorld.MatchString "(" t).toBool) ∧
    (rssMatcher.Match quotingWorld (mkMatcher "http://go.example/feed") "(").1 =
      (none, some (errors.New "error parsing regexp on Go 1.0 Released")) ∧
    rssMatcher.MatchValidated quotingWorld (mkMatcher "http://go.example/feed") "("
        "Go 1.0 Released" =
      (rssMatcher.Match quotingWorld (mkMatcher "http://go.example/feed") "(").1 ∧
    rssMatcher.MatchValidated quotingWorld (mkMatcher "http://go.example/feed") "(" "" ≠
      (rssMatcher.Match quotingWorld (mkMatcher "http://go.example/feed") "(").1 ∧
    (rssMatcher.MatchValidated quotingWorld (mkMatcher "http://go.example/feed") "(" "").1 =
      (rssMatcher.Match quotingWorld (mkMatcher "http://go.example/feed") "(").1.1 ∧
    (rssMatcher.Match demoWorld (mkMatcher "http://empty.example/feed") "(").1 = (none, none) ∧
    rssMatcher.MatchValidated demoWorld (mkMatcher "http://empty.example/feed") "(" "" =
      (none, some (errors.New "error parsing regexp: missing closing )")) :=
  ⟨demoWorld_paren_text_independent,
    rfl,
    ((C10_validate_once demoWorld (mkMatcher "http://go.example/feed") "(" goFeed _ rfl
      demoWorld_paren_text_independent).1 _ _ rfl).2.2.1,
    ((C10_validate_once demoWorld (mkMatcher "http://go.example/feed") "Go" goFeed _ rfl
      demoWorld_Go_text_independent).1 _ _ rfl).2.2.1,
    ((C10_validate_once demoWorld (mkMatcher "http://go.example/feed") "(" goFeed _ rfl
      demoWorld_paren_text_independent).1 _ _ rfl).2.2.2.2 ""
      (by intro s t err h; simpa [demoWorld, demoMatchString] using h),
    quotingWorld_paren_text_independent,
    rfl,
    ((C10_validate_once quotingWorld (mkMatcher "http://go.example/feed") "(" goFeed _ rfl
      quotingWorld_paren_text_independent).1 _ _ rfl).2.2.1,
    by decide,
    (((C10_validate_once quotingWorld (mkMatcher "http://go.example/feed") "(" goFeed _ rfl
      quotingWorld_paren_text_independent).1 _ _ rfl).2.2.2.1 "").1,
    ((C10_validate_once demoWorld (mkMatcher "http://empty.example/feed") "(" (mkDocument []) _
      rfl demoWorld_paren_text_independent).2 rfl).1,
    (((C10_validate_once demoWorld (mkMatcher "http://empty.example/feed") "(" (mkDocument []) _
      rfl demoWorld_paren_text_independent).2 rfl).2.2 "").trans rfl⟩

end Search
